import Mathlib

/-!
Verification of the project-generation core of express-autotemplates.

The embedded code is `src/generator.js` (shipped here as `src/unnamed/part_000`,
lines 1-78): the name validator `validateProjectName`, the template registry
`templates`, and the orchestrator `generateProject`, together with the five
template modules' `generate` routines (their sequences of directory/file
creations).

Modelling conventions:
* A JavaScript string is modelled as a `List Char` (its sequence of code
  points; every string relevant to the claims is ASCII, where UTF-16 code
  units and code points coincide).
* The filesystem is modelled as the set of existing paths, `FS := List Char → Bool`.
  File contents are not tracked: every claim concerns only existence,
  creation and deletion of paths.
* Filesystem primitives (`fs.pathExists`, `fs.ensureDir`, `fs.writeFile`,
  `fs.writeJson`, `fs.remove`) are modelled as total and deterministic
  (the fs itself never errors); the one fallible collaborator is a
  template's `generate`, which may update the fs and then raise.  Since
  the modelled `fs.remove` in the catch block always succeeds, the inner
  `try/catch` around it (which re-raises the original error even if
  removal fails) collapses to an unconditional removal.
* `generateProject` is parameterised by the registry so that theorems can
  quantify over arbitrary collaborator behaviour (e.g. a `generate` that
  raises after writing only some of its files); `generateProject` proper is
  the instantiation at the concrete module-level `templates` registry.
-/

namespace ExpressGen

/-! ## JavaScript string primitives -/

/-- White-space characters removed by JavaScript `String.prototype.trim`
(ECMA WhiteSpace and LineTerminator code points; ASCII ones plus NBSP,
LS, PS and BOM — the remaining rare Unicode space separators are omitted,
none being reachable in any claim). -/
def jsWhitespaceChar (c : Char) : Bool :=
  c == ' ' || c == '\t' || c == '\n' || c == '\r' ||
  c == Char.ofNat 11 || c == Char.ofNat 12 || c == Char.ofNat 160 ||
  c == Char.ofNat 0x2028 || c == Char.ofNat 0x2029 || c == Char.ofNat 0xFEFF

/-- JavaScript `s.trim()`: drop leading and trailing white space. -/
def jsTrim (l : List Char) : List Char :=
  ((l.dropWhile jsWhitespaceChar).reverse.dropWhile jsWhitespaceChar).reverse

/-- JavaScript `s.startsWith(p)` for a one-character p: first element check. -/
def jsStartsWith (l : List Char) (c : Char) : Bool :=
  match l with
  | [] => false
  | a :: _ => a == c

/-- JavaScript `s.toLowerCase()`.  The names compared case-insensitively in
the source are ASCII, where per-character `Char.toLower` coincides with the
JS Unicode lowering. -/
def jsToLower (l : List Char) : List Char := l.map Char.toLower

/-! ## The name validator (`validateProjectName`, generator.js lines 14-37) -/

/-- One character of the class `[a-z0-9-_]` with the `i` flag, i.e.
`[A-Za-z0-9-_]` (the `-` between `9` and `_` is a literal hyphen). -/
def validNameChar (c : Char) : Bool :=
  c.isAlphanum || c == '-' || c == '_'

/-- JavaScript `/^[a-z0-9-_]+$/i.test(s)`: without the `m` flag, `^` and `$`
anchor at the true ends of the input, so the test holds exactly when `s` is
a non-empty string of class characters. -/
def validNameRegexTest (l : List Char) : Bool :=
  !l.isEmpty && l.all validNameChar

/-- The reserved names of generator.js line 33. -/
def reservedNames : List (List Char) :=
  ["node_modules".toList, "favicon.ico".toList,
   "package.json".toList, "package-lock.json".toList]

/-- Every distinct throw site of the embedded code, plus the template
collaborator's own (opaque, message-carrying) error. -/
inductive GenError
  | emptyName                      -- Project name cannot be empty
  | nameTooLong                    -- longer than 214 characters
  | invalidChars                   -- only letters, numbers, hyphens, underscores
  | badStart                       -- cannot start with a dot or hyphen
  | reservedName                   -- a reserved name
  | directoryExists                -- Directory "name" already exists
  | templateNotFound               -- Template "type" not found
  | generateNotAFunction           -- TypeError: template.generate is not a function
  | templateError (msg : String)   -- error raised by a template's generate
deriving DecidableEq, Repr

/-- generator.js lines 14-37.  Returns the error of the first failing check,
`none` when all checks pass (the JS function returns `undefined`).
`!projectName` is true for a string exactly when it is empty. -/
def validateProjectName (name : List Char) : Option GenError :=
  if name.isEmpty || (jsTrim name).length == 0 then some .emptyName
  else if 214 < name.length then some .nameTooLong
  else if !validNameRegexTest name then some .invalidChars
  else if jsStartsWith name '.' || jsStartsWith name '-' then some .badStart
  else if reservedNames.contains (jsToLower name) then some .reservedName
  else none

/-! ## Paths and the filesystem model -/

/-- Node `path.join(base, seg)` for the joins the code performs: an empty
segment is ignored (`path.join(cwd, '') === cwd`); a non-empty segment is
appended after a separator.  Every non-empty segment the code joins is a
validated name or a literal relative path, so no further normalisation
applies. -/
def pathJoin (base seg : List Char) : List Char :=
  if seg.isEmpty then base else base ++ '/' :: seg

/-- A filesystem is the set of existing paths. -/
def FS : Type := List Char → Bool

/-- Does `q` start with the character sequence `pat`? -/
def beginsWith : List Char → List Char → Bool
  | [], _ => true
  | _ :: _, [] => false
  | a :: pat, b :: q => a == b && beginsWith pat q

/-- Is `q` the path `root` itself or a path strictly below it? -/
def isUnder (root q : List Char) : Bool :=
  q == root || beginsWith (root ++ ['/']) q

/-- The query `fs.pathExists(p)`. -/
def pathExists (fs : FS) (p : List Char) : Bool := fs p

/-- The operation `fs.ensureDir(p)`: after it, `p` exists.  (The real call
also creates missing parents; every call in the embedded code is made with
an existing parent, so only `p` itself is new.) -/
def ensureDir (fs : FS) (p : List Char) : FS :=
  fun q => if q == p then true else fs q

/-- The operations `fs.writeFile(p, content)` and `fs.writeJson(p, content)`:
after them, `p` exists.  Contents are untracked (no claim depends on them). -/
def writeFileFS (fs : FS) (p : List Char) : FS :=
  fun q => if q == p then true else fs q

/-- The operation `fs.remove(p)`: recursively delete `p` and everything
below it. -/
def removeFS (fs : FS) (root : List Char) : FS :=
  fun q => if isUnder root q then false else fs q

/-- The filesystem containing exactly the listed paths. -/
def listFS (ps : List (List Char)) : FS := fun q => ps.contains q

/-! ## Template collaborators -/

/-- One filesystem operation of a template's `generate`, with its path
relative to the project directory. -/
inductive FsOp
  | mkdir (rel : String)   -- fs.ensureDir(path.join(projectPath, rel))
  | write (rel : String)   -- fs.writeFile / fs.writeJson (path.join(projectPath, rel), ...)

/-- Run one operation against the filesystem. -/
def applyOp (base : List Char) (fs : FS) : FsOp → FS
  | .mkdir rel => ensureDir fs (pathJoin base rel.toList)
  | .write rel => writeFileFS fs (pathJoin base rel.toList)

/-- Run a template's operations in order. -/
def runOps (ops : List FsOp) (base : List Char) (fs : FS) : FS :=
  ops.foldl (applyOp base) fs

/-- A template collaborator: `generate(projectPath, projectName)` run against
a filesystem, returning the updated filesystem and `some msg` when it raised
(after having performed whatever writes it completed). -/
def Collab : Type := List Char → List Char → FS → FS × Option String

/-- The collaborator of a concrete template module: performs its operation
list and returns normally. -/
def opsCollab (ops : List FsOp) : Collab :=
  fun projectPath _projectName fs => (runOps ops projectPath fs, none)

/-- Result of the JavaScript property lookup `templates[templateType]`.
`templates` is an object literal, so the lookup falls back to
`Object.prototype`: for a key such as `toString` it yields an inherited
function (truthy, but without a `generate` property) rather than
`undefined`. -/
inductive TemplateLookup
  | found (t : Collab)   -- an own property: one of the five registered templates
  | inherited            -- a property inherited from Object.prototype (truthy)
  | absent               -- undefined (falsy)

/-- The enumerable and non-enumerable own property names of
`Object.prototype`, i.e. the keys on which `templates[k]` yields a truthy
inherited value instead of `undefined`. -/
def objectPrototypeProps : List (List Char) :=
  ["constructor".toList, "hasOwnProperty".toList, "isPrototypeOf".toList,
   "propertyIsEnumerable".toList, "toLocaleString".toList, "toString".toList,
   "valueOf".toList, "__defineGetter__".toList, "__defineSetter__".toList,
   "__lookupGetter__".toList, "__lookupSetter__".toList, "__proto__".toList]

/-! ## The five template modules' operation sequences -/

/-- templates/basic.js (part_000 lines 349-830). -/
def basicOps : List FsOp :=
  [.mkdir "config", .mkdir "controllers", .mkdir "models", .mkdir "routes",
   .mkdir "middlewares", .mkdir "utils", .mkdir "public",
   .write "package.json", .write "index.js", .write "config/db.js",
   .write "controllers/healthController.js", .write "routes/health.js",
   .write "middlewares/auth.js", .write "utils/logger.js",
   .write "utils/response.js", .write "models/README.md",
   .write "public/index.html", .write ".env", .write "README.md",
   .write ".gitignore"]

/-- templates/blog.js (part_001 lines 420-1073). -/
def blogOps : List FsOp :=
  [.write "package.json", .write "server.js", .write ".env",
   .write "README.md", .write ".gitignore",
   .mkdir "models", .mkdir "routes", .mkdir "middleware",
   .write "models/User.js", .write "models/Post.js", .write "models/Comment.js",
   .write "middleware/auth.js",
   .write "routes/auth.js", .write "routes/posts.js", .write "routes/comments.js",
   .mkdir "uploads"]

/-- templates/aichat.js (part_001 lines 1917-2638). -/
def aichatOps : List FsOp :=
  [.mkdir "models", .mkdir "routes", .mkdir "middleware", .mkdir "controllers",
   .mkdir "config", .mkdir "utils", .mkdir "services",
   .write "package.json", .write "server.js", .write "config/database.js",
   .write "models/User.js", .write "models/Chat.js",
   .write "services/openaiService.js", .write "middleware/auth.js",
   .write "controllers/authController.js", .write "controllers/chatController.js",
   .write "controllers/usageController.js",
   .write "routes/auth.js", .write "routes/chat.js", .write "routes/usage.js",
   .write "utils/socketHandler.js", .write ".env", .write "README.md",
   .write ".gitignore"]

/-- templates/ecom.js (ecom.js lines 441-1172). -/
def ecomOps : List FsOp :=
  [.write "package.json", .write "server.js", .write ".env",
   .write "README.md", .write ".gitignore",
   .mkdir "models", .mkdir "routes", .mkdir "middleware", .mkdir "uploads",
   .write "models/User.js", .write "models/Product.js",
   .write "models/Cart.js", .write "models/Order.js",
   .write "routes/auth.js", .write "middleware/auth.js",
   .write "routes/products.js", .write "routes/cart.js",
   .write "routes/orders.js", .write "routes/payments.js"]

/-- templates/chatapp.js (ecom.js lines 1752-2236). -/
def chatappOps : List FsOp :=
  [.mkdir "models", .mkdir "routes", .mkdir "middleware", .mkdir "controllers",
   .mkdir "config", .mkdir "utils",
   .write "package.json", .write "server.js", .write "config/database.js",
   .write "models/User.js", .write "models/Room.js", .write "models/Message.js",
   .write "middleware/auth.js",
   .write "controllers/authController.js", .write "controllers/roomController.js",
   .write "controllers/messageController.js",
   .write "routes/auth.js", .write "routes/rooms.js", .write "routes/messages.js",
   .write "utils/socketHandler.js", .write ".env", .write "README.md",
   .write ".gitignore"]

/-- The module-level registry (generator.js lines 5-11) together with the
JavaScript semantics of `templates[templateType]` on an object literal:
own properties first, then properties inherited from `Object.prototype`,
then `undefined`. -/
def templates (kind : List Char) : TemplateLookup :=
  if kind == "basic".toList then .found (opsCollab basicOps)
  else if kind == "chatapp".toList then .found (opsCollab chatappOps)
  else if kind == "ecom".toList then .found (opsCollab ecomOps)
  else if kind == "blog".toList then .found (opsCollab blogOps)
  else if kind == "aichat".toList then .found (opsCollab aichatOps)
  else if objectPrototypeProps.contains kind then .inherited
  else .absent

/-! ## The orchestrator (`generateProject`, generator.js lines 39-76) -/

/-- The successive steps of one invocation, recorded when the step
completes (for a check, when it passes). -/
inductive Step
  | validated         -- validateProjectName returned without throwing
  | existenceChecked  -- fs.pathExists(projectPath) was false
  | templateResolved  -- templates[templateType] was truthy
  | dirCreated        -- fs.ensureDir(projectPath) ran
  | templateInvoked   -- template.generate(projectPath, projectName) was called
deriving DecidableEq, Repr

/-- Outcome of one `generateProject` invocation: the final filesystem, the
error propagated to the caller (`none` on success), and the step trace. -/
structure GenResult where
  fs : FS
  error : Option GenError
  trace : List Step

/-- The `try` block of generator.js lines 40-62: validation, existence
check, registry lookup, directory creation, template invocation.  On the
`inherited` lookup the truthy value passes the `!template` check, the
directory is created, and the call `template.generate(...)` then raises a
TypeError because the property `generate` is `undefined`. -/
def generateProjectTry (reg : List Char → TemplateLookup)
    (cwd name kind : List Char) (fs : FS) : FS × Option GenError × List Step :=
  match validateProjectName name with
  | some e => (fs, some e, [])
  | none =>
    let projectPath := pathJoin cwd name
    if pathExists fs projectPath then
      (fs, some .directoryExists, [.validated])
    else
      match reg kind with
      | .absent => (fs, some .templateNotFound, [.validated, .existenceChecked])
      | .inherited =>
        (ensureDir fs projectPath, some .generateNotAFunction,
         [.validated, .existenceChecked, .templateResolved, .dirCreated])
      | .found t =>
        let fs1 := ensureDir fs projectPath
        let r := t projectPath name fs1
        (r.1, r.2.map GenError.templateError,
         [.validated, .existenceChecked, .templateResolved, .dirCreated,
          .templateInvoked])

/-- generator.js lines 39-76: the `try` block followed by the `catch`
block, which recomputes `projectPath`, removes it when it exists, and
re-raises the original error (removal of an existing path always succeeds
in this model, so the inner catch around `fs.remove` is not exercised). -/
def generateProjectWith (reg : List Char → TemplateLookup)
    (cwd name kind : List Char) (fs : FS) : GenResult :=
  match generateProjectTry reg cwd name kind fs with
  | (fs1, none, tr) => ⟨fs1, none, tr⟩
  | (fs1, some e, tr) =>
    let projectPath := pathJoin cwd name
    if pathExists fs1 projectPath then ⟨removeFS fs1 projectPath, some e, tr⟩
    else ⟨fs1, some e, tr⟩

/-- The exported `generateProject`, at the concrete module-level registry. -/
def generateProject (cwd name kind : List Char) (fs : FS) : GenResult :=
  generateProjectWith templates cwd name kind fs

/-- The canonical order of the five steps of one invocation. -/
def canonicalSteps : List Step :=
  [.validated, .existenceChecked, .templateResolved, .dirCreated, .templateInvoked]

/-- A collaborator that writes one file and then raises, used to witness
the rollback behaviour on a concrete input. -/
def failingCollab : Collab :=
  fun projectPath _name fs =>
    (writeFileFS fs (pathJoin projectPath "package.json".toList), some "disk full")

/-- A registry serving only `failingCollab` under the key `basic`. -/
def failingRegistry : List Char → TemplateLookup :=
  fun kind => if kind == "basic".toList then .found failingCollab else .absent

/-! ## Helper lemmas -/

/-- No JS white-space character is in the name-character class. -/
theorem validNameChar_eq_false_of_ws {c : Char} (h : jsWhitespaceChar c = true) :
    validNameChar c = false := by
  simp only [jsWhitespaceChar, Bool.or_eq_true, beq_iff_eq] at h
  rcases h with ((((((((h | h) | h) | h) | h) | h) | h) | h) | h) | h <;>
    subst h <;> decide

/-- Dropping leading white space from a white-space-free list is the identity. -/
theorem dropWhile_ws_eq_self {m : List Char}
    (hm : ∀ c ∈ m, jsWhitespaceChar c = false) :
    m.dropWhile jsWhitespaceChar = m := by
  cases m with
  | nil => rfl
  | cons a t =>
    rw [List.dropWhile_cons, hm a (by simp)]
    simp

/-- Trimming a white-space-free list is the identity. -/
theorem jsTrim_eq_self {l : List Char}
    (h : ∀ c ∈ l, jsWhitespaceChar c = false) : jsTrim l = l := by
  unfold jsTrim
  rw [dropWhile_ws_eq_self h, dropWhile_ws_eq_self (by simpa using h),
    List.reverse_reverse]

/-- Running a template's operations never deletes a path. -/
theorem runOps_preserves_exists (ops : List FsOp) (base : List Char) (fs : FS)
    (q : List Char) (h : fs q = true) : runOps ops base fs q = true := by
  induction ops generalizing fs with
  | nil => exact h
  | cons op ops ih =>
    refine ih (applyOp base fs op) ?_
    cases op with
    | mkdir rel =>
      simp only [applyOp, ensureDir]
      split <;> simp [h]
    | write rel =>
      simp only [applyOp, writeFileFS]
      split <;> simp [h]

/-- A path is under itself. -/
theorem isUnder_self (p : List Char) : isUnder p p = true := by
  simp [isUnder]

/-- Removing a path makes it (and everything under it) absent. -/
theorem removeFS_isUnder {fs : FS} {root q : List Char}
    (h : isUnder root q = true) : removeFS fs root q = false := by
  simp [removeFS, h]

/-- The concrete registry resolves every key to `absent`, `inherited`, or one
of the five operation-list collaborators. -/
theorem templates_cases (kind : List Char) :
    templates kind = .absent ∨ templates kind = .inherited ∨
      ∃ ops, templates kind = .found (opsCollab ops) := by
  unfold templates
  split
  · exact .inr (.inr ⟨basicOps, rfl⟩)
  split
  · exact .inr (.inr ⟨chatappOps, rfl⟩)
  split
  · exact .inr (.inr ⟨ecomOps, rfl⟩)
  split
  · exact .inr (.inr ⟨blogOps, rfl⟩)
  split
  · exact .inr (.inr ⟨aichatOps, rfl⟩)
  split
  · exact .inr (.inl rfl)
  · exact .inl rfl

/-- Packing a valid code point and unpacking it is the identity. -/
theorem toNat_ofNat_of_valid {n : Nat} (h : n.isValidChar) : (Char.ofNat n).toNat = n := by
  unfold Char.ofNat
  rw [dif_pos h]
  rfl

/-- Lowering on code points: shift A-Z by 32, fix everything else. -/
theorem toLower_toNat (c : Char) :
    (Char.toLower c).toNat =
      if c.toNat ≥ 65 ∧ c.toNat ≤ 90 then c.toNat + 32 else c.toNat := by
  unfold Char.toLower
  by_cases h : c.toNat ≥ 65 ∧ c.toNat ≤ 90
  · rw [if_pos h, if_pos h, toNat_ofNat_of_valid (Or.inl (by omega))]
  · rw [if_neg h, if_neg h]

/-- The code points of the name-character class `[A-Za-z0-9-_]`. -/
theorem validNameChar_ranges (c : Char) (h : validNameChar c = true) :
    (48 ≤ c.toNat ∧ c.toNat ≤ 57) ∨ (65 ≤ c.toNat ∧ c.toNat ≤ 90) ∨
      (97 ≤ c.toNat ∧ c.toNat ≤ 122) ∨ c.toNat = 45 ∨ c.toNat = 95 := by
  simp only [validNameChar, Char.isAlphanum, Char.isAlpha, Char.isUpper, Char.isLower,
    Char.isDigit, Bool.or_eq_true, Bool.and_eq_true, decide_eq_true_eq, beq_iff_eq] at h
  rcases h with (((⟨h1, h2⟩ | ⟨h1, h2⟩) | ⟨h1, h2⟩) | h) | h
  · exact .inr (.inl ⟨h1, h2⟩)
  · exact .inr (.inr (.inl ⟨h1, h2⟩))
  · exact .inl ⟨h1, h2⟩
  · subst h; exact .inr (.inr (.inr (.inl rfl)))
  · subst h; exact .inr (.inr (.inr (.inr rfl)))

/-- Lowering a name-class character never yields a dot. -/
theorem toLower_ne_dot (c : Char) (h : validNameChar c = true) :
    Char.toLower c ≠ '.' := by
  intro heq
  have h46 : (Char.toLower c).toNat = 46 := by rw [heq]; rfl
  rw [toLower_toNat] at h46
  have := validNameChar_ranges c h
  split at h46 <;> omega

/-! ## C1: existence failure is supposed to leave the pre-existing directory alone -/

/-- C1 (code bug): `generateProject("existing-dir", "basic")` in a working
directory `/work` that already contains `existing-dir` (itself containing
`data.txt`) does fail with the directory-exists error, but the catch-block
cleanup then sees that the target path exists and recursively deletes the
pre-existing directory and its contents before re-raising — the claim's
"left unmodified" is violated. -/
theorem directoryExists_cleanup_removes_preexisting_dir :
    (generateProject "/work".toList "existing-dir".toList "basic".toList
        (listFS ["/work".toList, "/work/existing-dir".toList,
          "/work/existing-dir/data.txt".toList])).error
        = some .directoryExists ∧
    (generateProject "/work".toList "existing-dir".toList "basic".toList
        (listFS ["/work".toList, "/work/existing-dir".toList,
          "/work/existing-dir/data.txt".toList])).fs "/work/existing-dir".toList
        = false ∧
    (generateProject "/work".toList "existing-dir".toList "basic".toList
        (listFS ["/work".toList, "/work/existing-dir".toList,
          "/work/existing-dir/data.txt".toList])).fs
          "/work/existing-dir/data.txt".toList = false ∧
    (generateProject "/work".toList "existing-dir".toList "basic".toList
        (listFS ["/work".toList, "/work/existing-dir".toList,
          "/work/existing-dir/data.txt".toList])).fs "/work".toList = true := by
  decide

/-! ## C2: invalid-name failure is supposed to leave the filesystem untouched -/

/-- C2 (code bug): `generateProject("", "basic")` fails with the empty-name
error as claimed, but the filesystem is not left untouched: the catch-block
cleanup resolves `path.join(cwd, "")` to the working directory itself and
recursively deletes it and all its contents before re-raising. -/
theorem emptyName_cleanup_removes_working_directory :
    (generateProject "/work".toList "".toList "basic".toList
        (listFS ["/work".toList, "/work/src".toList,
          "/work/src/main.js".toList])).error = some .emptyName ∧
    (generateProject "/work".toList "".toList "basic".toList
        (listFS ["/work".toList, "/work/src".toList,
          "/work/src/main.js".toList])).fs "/work".toList = false ∧
    (generateProject "/work".toList "".toList "basic".toList
        (listFS ["/work".toList, "/work/src".toList,
          "/work/src/main.js".toList])).fs "/work/src/main.js".toList = false := by
  decide

/-! ## C9: the concrete basic scenario succeeds -/

/-- C9: `generateProject("my-app", "basic")` in a working directory not
containing `my-app` succeeds, and afterwards `my-app/` exists and contains
the package manifest `package.json` and the entry point `index.js`. -/
theorem generate_basic_my_app_succeeds :
    (generateProject "/work".toList "my-app".toList "basic".toList
        (listFS ["/work".toList])).error = none ∧
    (generateProject "/work".toList "my-app".toList "basic".toList
        (listFS ["/work".toList])).fs "/work/my-app".toList = true ∧
    (generateProject "/work".toList "my-app".toList "basic".toList
        (listFS ["/work".toList])).fs "/work/my-app/package.json".toList = true ∧
    (generateProject "/work".toList "my-app".toList "basic".toList
        (listFS ["/work".toList])).fs "/work/my-app/index.js".toList = true := by
  decide

/-! ## C5: the validator accepts every well-formed name -/

/-- C5: every non-empty name of at most 214 class characters that does not
start with `.` or `-` and is not (case-insensitively) reserved passes
`validateProjectName` with no error. -/
theorem validateProjectName_accepts (name : List Char)
    (h1 : name ≠ [])
    (h2 : name.all validNameChar = true)
    (h3 : name.length ≤ 214)
    (h4 : jsStartsWith name '.' = false)
    (h5 : jsStartsWith name '-' = false)
    (h6 : reservedNames.contains (jsToLower name) = false) :
    validateProjectName name = none := by
  have hall : ∀ c ∈ name, validNameChar c = true := by
    simpa [List.all_eq_true] using h2
  have hws : ∀ c ∈ name, jsWhitespaceChar c = false := by
    intro c hc
    cases hx : jsWhitespaceChar c
    · rfl
    · have hf := validNameChar_eq_false_of_ws hx
      rw [hall c hc] at hf
      exact Bool.noConfusion hf
  have e1 : (name.isEmpty || (jsTrim name).length == 0) = false := by
    rw [jsTrim_eq_self hws]
    cases name with
    | nil => exact absurd rfl h1
    | cons a t => simp
  have e3 : (!validNameRegexTest name) = false := by
    unfold validNameRegexTest
    rw [h2]
    cases name with
    | nil => exact absurd rfl h1
    | cons a t => simp
  have e4 : (jsStartsWith name '.' || jsStartsWith name '-') = false := by
    rw [h4, h5]; rfl
  have hn : ¬ (214 < name.length) := by omega
  unfold validateProjectName
  rw [if_neg (by simp [e1]), if_neg hn, if_neg (by simp [e3]),
    if_neg (by simp [e4]), if_neg (fun hc => by rw [h6] at hc; exact Bool.noConfusion hc)]

/-- Witness for C5 at the concrete name `my-app`. -/
theorem validateProjectName_accepts_witness :
    validateProjectName "my-app".toList = none :=
  validateProjectName_accepts "my-app".toList (by decide) (by decide) (by decide)
    (by decide) (by decide) (by decide)

/-! ## C10: the reserved-name branch is reachable only for node_modules -/

/-- C10: whenever `validateProjectName` raises the reserved-name error, the
name is (case-insensitively) `node_modules`: the other three reserved
entries contain a dot, which the character-class check has already ruled
out of any name that reaches the reserved-name check. -/
theorem reservedName_error_only_node_modules (name : List Char)
    (h : validateProjectName name = some .reservedName) :
    jsToLower name = "node_modules".toList := by
  rw [validateProjectName] at h
  by_cases hb1 : (name.isEmpty || (jsTrim name).length == 0) = true
  · rw [if_pos hb1] at h
    exact absurd (Option.some.inj h) (by decide)
  rw [if_neg hb1] at h
  by_cases hb2 : 214 < name.length
  · rw [if_pos hb2] at h
    exact absurd (Option.some.inj h) (by decide)
  rw [if_neg hb2] at h
  by_cases hb3 : (!validNameRegexTest name) = true
  · rw [if_pos hb3] at h
    exact absurd (Option.some.inj h) (by decide)
  rw [if_neg hb3] at h
  by_cases hb4 : (jsStartsWith name '.' || jsStartsWith name '-') = true
  · rw [if_pos hb4] at h
    exact absurd (Option.some.inj h) (by decide)
  rw [if_neg hb4] at h
  by_cases hb5 : reservedNames.contains (jsToLower name) = true
  case neg =>
    rw [if_neg hb5] at h
    exact Option.noConfusion h
  have htest : validNameRegexTest name = true := by
    cases hx : validNameRegexTest name
    · exact absurd (by rw [hx]; rfl) hb3
    · rfl
  have hall : name.all validNameChar = true := by
    simp only [validNameRegexTest, Bool.and_eq_true] at htest
    exact htest.2
  have hmem : jsToLower name ∈ reservedNames := by
    simpa using hb5
  unfold reservedNames at hmem
  simp only [List.mem_cons, List.not_mem_nil, or_false] at hmem
  rcases hmem with he | he | he | he
  · exact he
  all_goals
    exfalso
    have hdot : '.' ∈ jsToLower name := by rw [he]; decide
    obtain ⟨c, hc, hlow⟩ := List.mem_map.mp hdot
    exact toLower_ne_dot c ((List.all_eq_true.mp hall) c hc) hlow

/-- Witness for C10 at the concrete name `NODE_MODULES`. -/
theorem reservedName_error_only_node_modules_witness :
    jsToLower "NODE_MODULES".toList = "node_modules".toList :=
  reservedName_error_only_node_modules "NODE_MODULES".toList (by decide)

/-! ## C3: a collaborator failure is rolled back and propagated unchanged -/

/-- C3: whenever an invocation reaches a registered template whose
`generate` raises (after performing any subset of its writes), the target
directory is absent afterwards, and the error the caller observes is the
collaborator's own error (never a cleanup error). -/
theorem template_failure_rolls_back_and_propagates
    (reg : List Char → TemplateLookup) (cwd name kind : List Char) (fs : FS)
    (t : Collab) (fs2 : FS) (msg : String)
    (hreg : reg kind = .found t)
    (hval : validateProjectName name = none)
    (hex : pathExists fs (pathJoin cwd name) = false)
    (ht : t (pathJoin cwd name) name (ensureDir fs (pathJoin cwd name))
      = (fs2, some msg)) :
    pathExists (generateProjectWith reg cwd name kind fs).fs (pathJoin cwd name)
      = false ∧
    (generateProjectWith reg cwd name kind fs).error
      = some (.templateError msg) := by
  have htry : generateProjectTry reg cwd name kind fs
      = (fs2, some (.templateError msg),
        [.validated, .existenceChecked, .templateResolved, .dirCreated,
          .templateInvoked]) := by
    unfold generateProjectTry
    rw [hval]
    dsimp only
    rw [if_neg (by simp [hex]), hreg]
    dsimp only
    rw [ht]
    rfl
  unfold generateProjectWith
  rw [htry]
  dsimp only
  by_cases hf : pathExists fs2 (pathJoin cwd name) = true
  · rw [if_pos hf]
    exact ⟨removeFS_isUnder (isUnder_self _), rfl⟩
  · rw [if_neg hf]
    refine ⟨?_, rfl⟩
    cases hx : pathExists fs2 (pathJoin cwd name)
    · rfl
    · exact absurd hx hf

/-- Witness for C3 at a concrete failing collaborator. -/
theorem template_failure_rolls_back_and_propagates_witness :
    pathExists (generateProjectWith failingRegistry "/work".toList "app".toList
        "basic".toList (listFS ["/work".toList])).fs
      (pathJoin "/work".toList "app".toList) = false ∧
    (generateProjectWith failingRegistry "/work".toList "app".toList
        "basic".toList (listFS ["/work".toList])).error
      = some (.templateError "disk full") :=
  template_failure_rolls_back_and_propagates failingRegistry "/work".toList
    "app".toList "basic".toList (listFS ["/work".toList]) failingCollab
    (writeFileFS (ensureDir (listFS ["/work".toList])
        (pathJoin "/work".toList "app".toList))
      (pathJoin (pathJoin "/work".toList "app".toList) "package.json".toList))
    "disk full" rfl (by decide) (by decide) rfl

/-! ## C4: the empty name deletes the entire working directory -/

/-- C4: calling `generateProject` with the empty name raises the empty-name
error; the catch-block then resolves `path.join(cwd, "")` to the working
directory itself, which exists, and recursively deletes it (and everything
under it) before re-raising. -/
theorem empty_name_deletes_working_directory
    (reg : List Char → TemplateLookup) (cwd kind : List Char) (fs : FS)
    (h : pathExists fs cwd = true) :
    (generateProjectWith reg cwd [] kind fs).error = some .emptyName ∧
    ∀ q, isUnder cwd q = true → (generateProjectWith reg cwd [] kind fs).fs q = false := by
  have htry : generateProjectTry reg cwd [] kind fs = (fs, some .emptyName, []) := rfl
  have hpj : pathJoin cwd [] = cwd := rfl
  unfold generateProjectWith
  rw [htry]
  dsimp only
  rw [hpj, if_pos h]
  exact ⟨rfl, fun q hq => removeFS_isUnder hq⟩

/-- Witness for C4 at a concrete working directory. -/
theorem empty_name_deletes_working_directory_witness :
    (generateProjectWith templates "/work".toList [] "basic".toList
        (listFS ["/work".toList, "/work/notes.txt".toList])).error
      = some .emptyName ∧
    ∀ q, isUnder "/work".toList q = true →
      (generateProjectWith templates "/work".toList [] "basic".toList
        (listFS ["/work".toList, "/work/notes.txt".toList])).fs q = false :=
  empty_name_deletes_working_directory templates "/work".toList "basic".toList
    (listFS ["/work".toList, "/work/notes.txt".toList]) (by decide)

/-! ## C6: unknown template kinds -/

/-- C6 counterexample: for the template kind `toString` — outside
`{basic, chatapp, ecom, blog, aichat}` — the claim fails: the lookup
`templates["toString"]` yields the truthy inherited
`Object.prototype.toString`, so the unknown-template throw is skipped, the
target directory is created (step `dirCreated` occurs), and the invocation
fails with the TypeError from calling the undefined `generate` property,
not with the unknown-template error. -/
theorem unknown_template_toString_counterexample :
    (generateProject "/work".toList "ok-app".toList "toString".toList
        (listFS ["/work".toList])).error = some .generateNotAFunction ∧
    (generateProject "/work".toList "ok-app".toList "toString".toList
        (listFS ["/work".toList])).error ≠ some .templateNotFound ∧
    Step.dirCreated ∈ (generateProject "/work".toList "ok-app".toList
        "toString".toList (listFS ["/work".toList])).trace ∧
    (generateProject "/work".toList "ok-app".toList "toString".toList
        (listFS ["/work".toList])).fs "/work/ok-app".toList = false := by
  decide

/-- C6 (amended): for every valid name whose target does not exist and every
template kind that is neither one of the five registered keys nor an
`Object.prototype` property name, `generateProject` fails with the
unknown-template error and the filesystem is unchanged. -/
theorem unknown_template_fails_without_creation
    (cwd name kind : List Char) (fs : FS)
    (hval : validateProjectName name = none)
    (hex : pathExists fs (pathJoin cwd name) = false)
    (h1 : kind ≠ "basic".toList) (h2 : kind ≠ "chatapp".toList)
    (h3 : kind ≠ "ecom".toList) (h4 : kind ≠ "blog".toList)
    (h5 : kind ≠ "aichat".toList)
    (h6 : objectPrototypeProps.contains kind = false) :
    (generateProject cwd name kind fs).error = some .templateNotFound ∧
    ∀ q, (generateProject cwd name kind fs).fs q = fs q := by
  have habs : templates kind = .absent := by
    unfold templates
    rw [if_neg (fun hc => h1 (by simpa using hc)),
      if_neg (fun hc => h2 (by simpa using hc)),
      if_neg (fun hc => h3 (by simpa using hc)),
      if_neg (fun hc => h4 (by simpa using hc)),
      if_neg (fun hc => h5 (by simpa using hc)),
      if_neg (fun hc => by rw [h6] at hc; exact Bool.noConfusion hc)]
  have htry : generateProjectTry templates cwd name kind fs
      = (fs, some .templateNotFound, [.validated, .existenceChecked]) := by
    unfold generateProjectTry
    rw [hval]
    dsimp only
    rw [if_neg (by simp [hex]), habs]
  unfold generateProject generateProjectWith
  rw [htry]
  dsimp only
  rw [if_neg (by simp [hex])]
  exact ⟨rfl, fun q => rfl⟩

/-- Witness for C6 (amended) at the concrete kind `unknown-kind`. -/
theorem unknown_template_fails_without_creation_witness :
    (generateProject "/work".toList "ok-app".toList "unknown-kind".toList
        (listFS ["/work".toList])).error = some .templateNotFound ∧
    ∀ q, (generateProject "/work".toList "ok-app".toList "unknown-kind".toList
        (listFS ["/work".toList])).fs q = listFS ["/work".toList] q :=
  unknown_template_fails_without_creation "/work".toList "ok-app".toList
    "unknown-kind".toList (listFS ["/work".toList]) (by decide) (by decide)
    (by decide) (by decide) (by decide) (by decide) (by decide) (by decide)

/-! ## C7: generation is not idempotent -/

/-- C7: if a call to `generateProject` succeeds, an immediate second call
with the same name (and any kind) fails with the directory-exists error. -/
theorem generate_twice_fails_with_directoryExists
    (cwd name kind : List Char) (fs : FS)
    (h : (generateProject cwd name kind fs).error = none) :
    (generateProject cwd name kind
      ((generateProject cwd name kind fs).fs)).error = some .directoryExists := by
  unfold generateProject at h ⊢
  cases hval : validateProjectName name with
  | some e =>
    exfalso
    have htry : generateProjectTry templates cwd name kind fs = (fs, some e, []) := by
      unfold generateProjectTry; rw [hval]
    unfold generateProjectWith at h
    rw [htry] at h
    dsimp only at h
    split at h <;> exact Option.noConfusion h
  | none =>
    by_cases hex : pathExists fs (pathJoin cwd name) = true
    · exfalso
      have htry : generateProjectTry templates cwd name kind fs
          = (fs, some .directoryExists, [.validated]) := by
        unfold generateProjectTry; rw [hval]; dsimp only; rw [if_pos hex]
      unfold generateProjectWith at h
      rw [htry] at h
      dsimp only at h
      split at h <;> exact Option.noConfusion h
    · rcases templates_cases kind with habs | hinh | ⟨ops, hops⟩
      · exfalso
        have htry : generateProjectTry templates cwd name kind fs
            = (fs, some .templateNotFound, [.validated, .existenceChecked]) := by
          unfold generateProjectTry; rw [hval]; dsimp only; rw [if_neg hex, habs]
        unfold generateProjectWith at h
        rw [htry] at h
        dsimp only at h
        split at h <;> exact Option.noConfusion h
      · exfalso
        have htry : generateProjectTry templates cwd name kind fs
            = (ensureDir fs (pathJoin cwd name), some .generateNotAFunction,
              [.validated, .existenceChecked, .templateResolved, .dirCreated]) := by
          unfold generateProjectTry; rw [hval]; dsimp only; rw [if_neg hex, hinh]
        unfold generateProjectWith at h
        rw [htry] at h
        dsimp only at h
        split at h <;> exact Option.noConfusion h
      · have htry : generateProjectTry templates cwd name kind fs
            = (runOps ops (pathJoin cwd name) (ensureDir fs (pathJoin cwd name)), none,
              [.validated, .existenceChecked, .templateResolved, .dirCreated,
                .templateInvoked]) := by
          unfold generateProjectTry; rw [hval]; dsimp only; rw [if_neg hex, hops]
          rfl
        have hres : generateProjectWith templates cwd name kind fs
            = ⟨runOps ops (pathJoin cwd name) (ensureDir fs (pathJoin cwd name)), none,
              [.validated, .existenceChecked, .templateResolved, .dirCreated,
                .templateInvoked]⟩ := by
          unfold generateProjectWith
          rw [htry]
        rw [hres]
        dsimp only
        have hex1 : pathExists (runOps ops (pathJoin cwd name)
            (ensureDir fs (pathJoin cwd name))) (pathJoin cwd name) = true := by
          apply runOps_preserves_exists
          simp [ensureDir]
        have htry2 : generateProjectTry templates cwd name kind
            (runOps ops (pathJoin cwd name) (ensureDir fs (pathJoin cwd name)))
            = (runOps ops (pathJoin cwd name) (ensureDir fs (pathJoin cwd name)),
              some .directoryExists, [.validated]) := by
          unfold generateProjectTry; rw [hval]; dsimp only; rw [if_pos hex1]
        unfold generateProjectWith
        rw [htry2]
        dsimp only
        rw [if_pos hex1]

/-- Witness for C7 at a concrete successful first call. -/
theorem generate_twice_fails_with_directoryExists_witness :
    (generateProject "/w".toList "app".toList "basic".toList
      ((generateProject "/w".toList "app".toList "basic".toList
        (listFS ["/w".toList])).fs)).error = some .directoryExists :=
  generate_twice_fails_with_directoryExists "/w".toList "app".toList
    "basic".toList (listFS ["/w".toList]) (by decide)

/-! ## C8: the steps of one invocation occur in a fixed order -/

/-- C8: every invocation's step trace is a prefix of the canonical order
validation, existence check, registry lookup, directory creation, template
invocation — so in particular the directory is only ever created after the
first three steps have all succeeded — and a successful invocation performs
all five steps. -/
theorem generateProject_steps_in_order
    (reg : List Char → TemplateLookup) (cwd name kind : List Char) (fs : FS) :
    (∃ n, (generateProjectWith reg cwd name kind fs).trace = canonicalSteps.take n) ∧
    ((generateProjectWith reg cwd name kind fs).error = none →
      (generateProjectWith reg cwd name kind fs).trace = canonicalSteps) := by
  cases hval : validateProjectName name with
  | some e =>
    have htry : generateProjectTry reg cwd name kind fs = (fs, some e, []) := by
      unfold generateProjectTry; rw [hval]
    unfold generateProjectWith
    rw [htry]
    dsimp only
    split
    · exact ⟨⟨0, rfl⟩, fun hc => Option.noConfusion hc⟩
    · exact ⟨⟨0, rfl⟩, fun hc => Option.noConfusion hc⟩
  | none =>
    by_cases hex : pathExists fs (pathJoin cwd name) = true
    · have htry : generateProjectTry reg cwd name kind fs
          = (fs, some .directoryExists, [.validated]) := by
        unfold generateProjectTry; rw [hval]; dsimp only; rw [if_pos hex]
      unfold generateProjectWith
      rw [htry]
      dsimp only
      split
      · exact ⟨⟨1, rfl⟩, fun hc => Option.noConfusion hc⟩
      · exact ⟨⟨1, rfl⟩, fun hc => Option.noConfusion hc⟩
    · cases hreg : reg kind with
      | absent =>
        have htry : generateProjectTry reg cwd name kind fs
            = (fs, some .templateNotFound, [.validated, .existenceChecked]) := by
          unfold generateProjectTry; rw [hval]; dsimp only; rw [if_neg hex, hreg]
        unfold generateProjectWith
        rw [htry]
        dsimp only
        split
        · exact ⟨⟨2, rfl⟩, fun hc => Option.noConfusion hc⟩
        · exact ⟨⟨2, rfl⟩, fun hc => Option.noConfusion hc⟩
      | inherited =>
        have htry : generateProjectTry reg cwd name kind fs
            = (ensureDir fs (pathJoin cwd name), some .generateNotAFunction,
              [.validated, .existenceChecked, .templateResolved, .dirCreated]) := by
          unfold generateProjectTry; rw [hval]; dsimp only; rw [if_neg hex, hreg]
        unfold generateProjectWith
        rw [htry]
        dsimp only
        split
        · exact ⟨⟨4, rfl⟩, fun hc => Option.noConfusion hc⟩
        · exact ⟨⟨4, rfl⟩, fun hc => Option.noConfusion hc⟩
      | found t =>
        cases hgen : (t (pathJoin cwd name) name
            (ensureDir fs (pathJoin cwd name))).2 with
        | none =>
          have htry : generateProjectTry reg cwd name kind fs
              = ((t (pathJoin cwd name) name (ensureDir fs (pathJoin cwd name))).1,
                none, canonicalSteps) := by
            unfold generateProjectTry; rw [hval]; dsimp only; rw [if_neg hex, hreg]
            dsimp only
            rw [hgen]
            rfl
          unfold generateProjectWith
          rw [htry]
          exact ⟨⟨5, rfl⟩, fun _ => rfl⟩
        | some msg =>
          have htry : generateProjectTry reg cwd name kind fs
              = ((t (pathJoin cwd name) name (ensureDir fs (pathJoin cwd name))).1,
                some (.templateError msg), canonicalSteps) := by
            unfold generateProjectTry; rw [hval]; dsimp only; rw [if_neg hex, hreg]
            dsimp only
            rw [hgen]
            rfl
          unfold generateProjectWith
          rw [htry]
          dsimp only
          split
          · exact ⟨⟨5, rfl⟩, fun hc => Option.noConfusion hc⟩
          · exact ⟨⟨5, rfl⟩, fun hc => Option.noConfusion hc⟩

end ExpressGen
